import Mathlib

/-!
Shallow embedding of `homeassistant/components/nina/__init__.py`:
the NINA warning coordinator.  Python dictionaries are modelled as
association lists (Python dicts preserve insertion order), the
external `pynina` client as a record of its observable state, and the
coroutine `refresh` cycle as a pure function over the outcome of the
client's update call.
-/

/-- Substring check: does `pat` occur at the start of `text`?
(Models Python `str.startswith` on char lists.) -/
def charsStartWith : List Char → List Char → Bool
  | [], _ => true
  | _ :: _, [] => false
  | p :: ps, c :: cs => (p == c) && charsStartWith ps cs

/-- Substring containment on char lists: models Python `pat in text`. -/
def charsContain (pat : List Char) : List Char → Bool
  | [] => charsStartWith pat []
  | c :: cs => charsStartWith pat (c :: cs) || charsContain pat cs

/-- Models Python `"corona" in headline.lower()` from `_parse_data`. -/
def headlineHasCorona (headline : String) : Bool :=
  charsContain "corona".toList (headline.toList.map Char.toLower)

/-- A raw warning object exposed by the external `pynina` client after
`update()`: the attributes `_parse_data` reads.  The optional
timestamps model attributes that may be `None` from the client;
`isValid` holds the value the client's `isValid()` method returns. -/
structure RawWarning where
  id : String
  headline : String
  description : String
  sender : String
  severity : String
  sent : Option String
  start : Option String
  expires : Option String
  isValid : Bool
deriving Repr, DecidableEq

/-- Python `x or ""` applied to an optional string: `None` and the
empty string both normalize to `""`. -/
def pyOrEmpty : Option String → String
  | none => ""
  | some s => s

/-- The dataclass `NinaWarningData` from the source. -/
structure NinaWarningData where
  id : String
  headline : String
  description : String
  sender : String
  severity : String
  sent : String
  start : String
  expires : String
  is_valid : Bool
deriving Repr, DecidableEq

/-- The `NinaWarningData(...)` construction inside `_parse_data`'s loop. -/
def toWarningData (w : RawWarning) : NinaWarningData :=
  ⟨w.id, w.headline, w.description, w.sender, w.severity,
    pyOrEmpty w.sent, pyOrEmpty w.start, pyOrEmpty w.expires, w.isValid⟩

/-- The inner loop of `_parse_data` over one region's raw warnings:
a warning whose lowered headline contains `"corona"` is skipped when
`corona_filter` is set; every other warning is converted and appended. -/
def parseRegionWarnings (corona_filter : Bool) : List RawWarning → List NinaWarningData
  | [] => []
  | w :: ws =>
    if headlineHasCorona w.headline && corona_filter then
      parseRegionWarnings corona_filter ws
    else
      toWarningData w :: parseRegionWarnings corona_filter ws

/-- `NINADataUpdateCoordinator._parse_data`: builds the output dict by
iterating the client's `warnings` dict items in order. -/
def parse_data (corona_filter : Bool)
    (warnings : List (String × List RawWarning)) :
    List (String × List NinaWarningData) :=
  warnings.map (fun p => (p.1, parseRegionWarnings corona_filter p.2))

/-- Observable state of the external `pynina` `Nina` client: the
regions registered through `addRegion` and the per-region warnings
available after `update()`. -/
structure Nina where
  regions : List String
  warnings : List (String × List RawWarning)
deriving Repr, DecidableEq

/-- `Nina.addRegion`: registers one more region with the client. -/
def Nina.addRegion (n : Nina) (region : String) : Nina :=
  ⟨n.regions ++ [region], n.warnings⟩

/-- The `ApiError` the client may raise from `update()`. -/
structure ApiError where
  message : String
deriving Repr, DecidableEq

/-- Outcome of the client's `update()` call as observed by the
coordinator: success delivering fresh per-region warnings, an
`ApiError`, or expiry of the surrounding 10-second timeout. -/
inductive ClientUpdateResult where
  | success (warnings : List (String × List RawWarning))
  | apiError (err : ApiError)
  | timedOut
deriving Repr, DecidableEq

/-- `NINADataUpdateCoordinator` state: configured regions, the owned
client, the parsed-warnings cache field, the corona filter flag, and
the base class's latest successful snapshot (`data`). -/
structure NINADataUpdateCoordinator where
  regionsCfg : List (String × String)
  nina : Nina
  warnings : List (String × List NinaWarningData)
  corona_filter : Bool
  data : Option (List (String × List NinaWarningData))
deriving Repr, DecidableEq

/-- `NINADataUpdateCoordinator.__init__`: stores the configuration,
creates a fresh client, and registers every configured region key with
it in order.  No snapshot exists yet. -/
def initCoordinator (regions : List (String × String)) (corona_filter : Bool) :
    NINADataUpdateCoordinator :=
  ⟨regions,
    regions.foldl (fun n p => n.addRegion p.1) ⟨[], []⟩,
    [], corona_filter, none⟩

/-- Result of `_async_update_data`: a parsed snapshot, an
`UpdateFailed` raised from an `ApiError`, or the timeout error
escaping the `async with timeout(10)` block. -/
inductive UpdateDataResult where
  | parsed (snapshot : List (String × List NinaWarningData))
  | updateFailedRaised (cause : ApiError)
  | timeoutError
deriving Repr, DecidableEq

/-- `NINADataUpdateCoordinator._async_update_data`: awaits the
client's `update()` under `timeout(10)`; an `ApiError` is re-raised as
`UpdateFailed(err) from err`; on success the client now holds the new
warnings and `_parse_data` is returned. -/
def async_update_data (c : NINADataUpdateCoordinator)
    (client : ClientUpdateResult) :
    UpdateDataResult × NINADataUpdateCoordinator :=
  match client with
  | .timedOut => (.timeoutError, c)
  | .apiError e => (.updateFailedRaised e, c)
  | .success w =>
    let c' : NINADataUpdateCoordinator :=
      ⟨c.regionsCfg, ⟨c.nina.regions, w⟩, c.warnings, c.corona_filter, c.data⟩
    (.parsed (parse_data c'.corona_filter c'.nina.warnings), c')

/-- Cause carried by the platform's "update failed" signal. -/
inductive FailCause where
  | apiError (e : ApiError)
  | timeoutExpired
deriving Repr, DecidableEq

/-- The single "update failed" signal surfaced to the host platform. -/
structure UpdateFailedSignal where
  cause : FailCause
deriving Repr, DecidableEq

/-- Result of one `refresh()` tick as seen by the host platform. -/
inductive RefreshResult where
  | ok (snapshot : List (String × List NinaWarningData))
  | failed (signal : UpdateFailedSignal)
deriving Repr, DecidableEq

/-- Modelled from the spec: the host platform's `DataUpdateCoordinator`
base class is not under `src/`.  Per the spec, `refresh()` returns
`Result<T, UpdateFailed>`: on success the snapshot `data` is replaced
wholesale; an `ApiError` and a timeout both fail with an "update
failed" signal carrying the cause, and a failed refresh leaves the
previous snapshot in place. -/
def refresh (c : NINADataUpdateCoordinator) (client : ClientUpdateResult) :
    RefreshResult × NINADataUpdateCoordinator :=
  match async_update_data c client with
  | (.parsed snap, c') =>
    (.ok snap, ⟨c'.regionsCfg, c'.nina, c'.warnings, c'.corona_filter, some snap⟩)
  | (.updateFailedRaised e, c') => (.failed ⟨.apiError e⟩, c')
  | (.timeoutError, c') => (.failed ⟨.timeoutExpired⟩, c')

example : headlineHasCorona "Corona Update" = true := by decide
example : headlineHasCorona "Storm Warning" = false := by decide
example : parseRegionWarnings true
    [⟨"i1", "CORONA news", "d", "s", "Minor", none, none, none, true⟩] = [] := by decide

/-! ### Sample data for concrete witnesses -/

/-- The configured region mapping of the spec's scenario. -/
def sampleRegions : List (String × String) := [("083350000000", "Aachen")]

/-- A raw storm warning with one absent and one empty timestamp. -/
def stormRaw : RawWarning :=
  ⟨"w1", "Storm Warning", "gale", "DWD", "Minor", some "2021-10-01T10:00:00",
    none, some "", true⟩

/-- A raw warning whose headline names corona. -/
def coronaRaw : RawWarning :=
  ⟨"w2", "Corona Update", "pandemic", "RKI", "Minor", none, some "", none, true⟩

/-- A coordinator built over the sample regions with the filter on. -/
def sampleCoordinator : NINADataUpdateCoordinator := initCoordinator sampleRegions true

/-- Client warnings reporting exactly the sample region. -/
def sampleClientWarnings : List (String × List RawWarning) :=
  [("083350000000", [coronaRaw])]

/-! ### Helper lemmas -/

/-- The loop of `_parse_data` over one region is a filter followed by
a field mapping, in upstream order. -/
theorem parseRegionWarnings_eq_filter_map (flag : Bool) (ws : List RawWarning) :
    parseRegionWarnings flag ws =
      (ws.filter fun rw => !(headlineHasCorona rw.headline && flag)).map toWarningData := by
  induction ws with
  | nil => rfl
  | cons w ws ih =>
    cases flag with
    | false => simp [parseRegionWarnings, List.filter_cons, ih]
    | true =>
      cases hc : headlineHasCorona w.headline <;>
        simp [parseRegionWarnings, hc, List.filter_cons, ih]

/-- `_parse_data` keeps exactly the client's region keys, in order. -/
theorem parse_data_keys (flag : Bool) (w : List (String × List RawWarning)) :
    (parse_data flag w).map Prod.fst = w.map Prod.fst := by
  simp [parse_data, List.map_map, Function.comp]

/-- Folding `addRegion` registers exactly the keys of the folded list,
appended in order. -/
theorem foldl_addRegion (l : List (String × String)) (n : Nina) :
    (l.foldl (fun n p => n.addRegion p.1) n).regions = n.regions ++ l.map Prod.fst := by
  induction l generalizing n with
  | nil => simp
  | cons p l ih => rw [List.foldl_cons, ih]; simp [Nina.addRegion]

/-- Converting a raw warning keeps its headline. -/
theorem toWarningData_headline (w : RawWarning) :
    (toWarningData w).headline = w.headline := rfl

/-! ### Claim theorems -/

/-- C2: when the client's update call exceeds the 10-second timeout,
`refresh` fails with the same "update failed" signal shape as an API
error, carrying the timeout as cause, and the coordinator — in
particular its stored snapshot `data` — is unchanged. -/
theorem refresh_timeout_update_failed (c : NINADataUpdateCoordinator) :
    refresh c .timedOut = (.failed ⟨.timeoutExpired⟩, c) ∧
    ((refresh c .timedOut).2).data = c.data :=
  ⟨rfl, rfl⟩

/-- C3: when the client's update call raises an `ApiError`, `refresh`
fails with an "update failed" signal whose cause is that very error,
and the coordinator state — including the stored snapshot `data` — is
left untouched. -/
theorem refresh_api_error_update_failed (c : NINADataUpdateCoordinator) (e : ApiError) :
    refresh c (.apiError e) = (.failed ⟨.apiError e⟩, c) ∧
    ((refresh c (.apiError e)).2).data = c.data :=
  ⟨rfl, rfl⟩

/-- C7: refreshing twice against unchanged client warnings yields two
structurally equal snapshots, and the stored snapshot after the second
refresh equals the one after the first. -/
theorem refresh_twice_same_snapshot (c : NINADataUpdateCoordinator)
    (w : List (String × List RawWarning)) :
    (refresh c (.success w)).1 =
      (refresh ((refresh c (.success w)).2) (.success w)).1 ∧
    ((refresh ((refresh c (.success w)).2) (.success w)).2).data =
      ((refresh c (.success w)).2).data :=
  ⟨rfl, rfl⟩

/-- C8: construction registers with the client exactly the region
identifiers of the configuration mapping, in order — every configured
region and no other. -/
theorem init_registers_exactly_configured (regions : List (String × String))
    (corona_filter : Bool) :
    (initCoordinator regions corona_filter).nina.regions = regions.map Prod.fst := by
  simp [initCoordinator, foldl_addRegion]

/-- C9: no refresh — successful, failed, or timed out — changes the
corona filter flag, the configured region mapping, or the set of
regions registered with the client. -/
theorem refresh_preserves_flag_and_regions (c : NINADataUpdateCoordinator)
    (client : ClientUpdateResult) :
    ((refresh c client).2).corona_filter = c.corona_filter ∧
    ((refresh c client).2).regionsCfg = c.regionsCfg ∧
    ((refresh c client).2).nina.regions = c.nina.regions := by
  cases client <;> exact ⟨rfl, rfl, rfl⟩

/-- C6: the per-region output of `_parse_data` is the client's raw
warning list for that region in upstream order, with only the filtered
warnings removed and each survivor converted fieldwise — in
particular, the output headlines form a sublist of the raw headlines
(no re-sorting). -/
theorem parse_data_preserves_order (flag : Bool)
    (w : List (String × List RawWarning)) :
    parse_data flag w = w.map (fun p => (p.1,
      (p.2.filter fun rw => !(headlineHasCorona rw.headline && flag)).map toWarningData)) ∧
    ∀ p ∈ w, List.Sublist
      ((parseRegionWarnings flag p.2).map NinaWarningData.headline)
      (p.2.map RawWarning.headline) := by
  constructor
  · simp [parse_data, parseRegionWarnings_eq_filter_map]
  · intro p _
    rw [parseRegionWarnings_eq_filter_map, List.map_map]
    have hcomp : (NinaWarningData.headline ∘ toWarningData) = RawWarning.headline := by
      funext x; rfl
    rw [hcomp]
    exact (List.filter_sublist p.2).map RawWarning.headline

/-- C4: a warning whose lowered headline contains "corona" is dropped
from its region's output when the filter flag is set, and every
warning not matching both conditions (in particular any warning when
the flag is off) yields its record in the output. -/
theorem corona_filter_membership (flag : Bool) (ws : List RawWarning)
    (w : RawWarning) (hmem : w ∈ ws) :
    (flag = true → headlineHasCorona w.headline = true →
      toWarningData w ∉ parseRegionWarnings flag ws) ∧
    (¬(headlineHasCorona w.headline = true ∧ flag = true) →
      toWarningData w ∈ parseRegionWarnings flag ws) := by
  rw [parseRegionWarnings_eq_filter_map]
  constructor
  · rintro rfl hcor hmem'
    rcases List.mem_map.1 hmem' with ⟨w', hw', heq⟩
    rcases List.mem_filter.1 hw' with ⟨_, hpred⟩
    have hh := congrArg NinaWarningData.headline heq
    rw [toWarningData_headline, toWarningData_headline] at hh
    rw [hh, hcor] at hpred
    simp at hpred
  · intro hn
    refine List.mem_map_of_mem toWarningData (List.mem_filter.2 ⟨hmem, ?_⟩)
    cases hc : headlineHasCorona w.headline <;> cases hf : flag <;> simp_all

/-- Witness for C4: with the filter on, the corona-headlined record is
absent and the storm record present. -/
theorem corona_filter_membership_witness :
    coronaRaw ∈ [coronaRaw, stormRaw] ∧ stormRaw ∈ [coronaRaw, stormRaw] ∧
    toWarningData coronaRaw ∉ parseRegionWarnings true [coronaRaw, stormRaw] ∧
    toWarningData stormRaw ∈ parseRegionWarnings true [coronaRaw, stormRaw] :=
  ⟨by decide, by decide,
    (corona_filter_membership true [coronaRaw, stormRaw] coronaRaw
      (by decide)).1 rfl (by decide),
    (corona_filter_membership true [coronaRaw, stormRaw] stormRaw
      (by decide)).2 (by decide)⟩

/-- C5: every record in a region's output comes fieldwise from some
raw client warning, and an absent (`None`) or empty sent, start, or
expires timestamp on that raw warning is normalized to the empty
string in the record. -/
theorem records_normalize_empty_timestamps (flag : Bool) (ws : List RawWarning) :
    ∀ d ∈ parseRegionWarnings flag ws, ∃ raw ∈ ws, d = toWarningData raw ∧
      ((raw.sent = none ∨ raw.sent = some "") → d.sent = "") ∧
      ((raw.start = none ∨ raw.start = some "") → d.start = "") ∧
      ((raw.expires = none ∨ raw.expires = some "") → d.expires = "") := by
  intro d hd
  rw [parseRegionWarnings_eq_filter_map] at hd
  rcases List.mem_map.1 hd with ⟨raw, hraw, rfl⟩
  refine ⟨raw, List.mem_of_mem_filter hraw, rfl, ?_, ?_, ?_⟩ <;>
    rintro (h | h) <;> simp [toWarningData, pyOrEmpty, h]

/-- Witness for C5: the storm record, whose raw `start` is absent and
raw `expires` is empty, is normalized to empty strings. -/
theorem records_normalize_empty_timestamps_witness :
    toWarningData stormRaw ∈ parseRegionWarnings false [stormRaw] ∧
    (∃ raw ∈ [stormRaw], toWarningData stormRaw = toWarningData raw ∧
      ((raw.sent = none ∨ raw.sent = some "") → (toWarningData stormRaw).sent = "") ∧
      ((raw.start = none ∨ raw.start = some "") → (toWarningData stormRaw).start = "") ∧
      ((raw.expires = none ∨ raw.expires = some "") →
        (toWarningData stormRaw).expires = "")) :=
  ⟨by decide,
    records_normalize_empty_timestamps false [stormRaw]
      (toWarningData stormRaw) (by decide)⟩

/-- C1: when the client reports warnings for exactly the configured
regions (duplicate-free), a successful refresh returns a mapping whose
keys are the configured regions, each occurring exactly once, and a
region whose warnings were all filtered out is present with an empty
sequence rather than absent. -/
theorem refresh_one_entry_per_region (c : NINADataUpdateCoordinator)
    (w : List (String × List RawWarning))
    (hall : w.map Prod.fst = c.regionsCfg.map Prod.fst)
    (hnodup : (w.map Prod.fst).Nodup) :
    (refresh c (.success w)).1 = .ok (parse_data c.corona_filter w) ∧
    (parse_data c.corona_filter w).map Prod.fst = c.regionsCfg.map Prod.fst ∧
    (∀ r ∈ c.regionsCfg.map Prod.fst,
      ((parse_data c.corona_filter w).map Prod.fst).count r = 1) ∧
    (∀ p ∈ w, parseRegionWarnings c.corona_filter p.2 = [] →
      (p.1, ([] : List NinaWarningData)) ∈ parse_data c.corona_filter w) := by
  refine ⟨rfl, ?_, ?_, ?_⟩
  · rw [parse_data_keys, hall]
  · intro r hr
    rw [parse_data_keys, hall]
    exact List.count_eq_one_of_mem (hall ▸ hnodup) hr
  · intro p hp hempty
    have hmem : (p.1, parseRegionWarnings c.corona_filter p.2) ∈
        parse_data c.corona_filter w :=
      List.mem_map_of_mem _ hp
    rwa [hempty] at hmem

/-- Witness for C1: the sample region's only warning is filtered away,
yet the region keeps its (empty) entry, occurring exactly once. -/
theorem refresh_one_entry_per_region_witness :
    (sampleClientWarnings.map Prod.fst = sampleCoordinator.regionsCfg.map Prod.fst ∧
      (sampleClientWarnings.map Prod.fst).Nodup) ∧
    ((parse_data sampleCoordinator.corona_filter sampleClientWarnings).map
        Prod.fst).count "083350000000" = 1 ∧
    ("083350000000", ([] : List NinaWarningData)) ∈
      parse_data sampleCoordinator.corona_filter sampleClientWarnings :=
  ⟨⟨by decide, by decide⟩,
    (refresh_one_entry_per_region sampleCoordinator sampleClientWarnings
      (by decide) (by decide)).2.2.1 "083350000000" (by decide),
    (refresh_one_entry_per_region sampleCoordinator sampleClientWarnings
      (by decide) (by decide)).2.2.2 ("083350000000", [coronaRaw])
      (by decide) (by decide)⟩

/-- C10: the key list of a successful refresh's snapshot equals the
client's reported key list: a region the client does not report is
absent from the output even if configured, and any region the client
reports appears in the output even if never configured. -/
theorem parse_keys_match_client (c : NINADataUpdateCoordinator)
    (w : List (String × List RawWarning)) (r : String) :
    (refresh c (.success w)).1 = .ok (parse_data c.corona_filter w) ∧
    (parse_data c.corona_filter w).map Prod.fst = w.map Prod.fst ∧
    (r ∉ w.map Prod.fst → r ∉ (parse_data c.corona_filter w).map Prod.fst) ∧
    (r ∈ w.map Prod.fst → r ∈ (parse_data c.corona_filter w).map Prod.fst) := by
  refine ⟨rfl, parse_data_keys _ _, fun h => ?_, fun h => ?_⟩ <;>
    rwa [parse_data_keys]

/-- Witness for C10: the reported sample region appears in the output
key list. -/
theorem parse_keys_match_client_witness :
    "083350000000" ∈ sampleClientWarnings.map Prod.fst ∧
    "083350000000" ∈
      (parse_data sampleCoordinator.corona_filter sampleClientWarnings).map Prod.fst :=
  ⟨by decide,
    (parse_keys_match_client sampleCoordinator sampleClientWarnings
      "083350000000").2.2.2 (by decide)⟩

/-- Witness for C6: the sample region's headline list after filtering
is a sublist of the raw headline list. -/
theorem parse_data_preserves_order_witness :
    ("083350000000", [coronaRaw]) ∈ sampleClientWarnings ∧
    List.Sublist ((parseRegionWarnings true [coronaRaw]).map NinaWarningData.headline)
      ([coronaRaw].map RawWarning.headline) :=
  ⟨by decide,
    (parse_data_preserves_order true sampleClientWarnings).2
      ("083350000000", [coronaRaw]) (by decide)⟩
